import Mathlib

/-!
Verification of the query-construction and execution layer of the
PostgreSQL MCP server (`postgres_mcp_server.py`) and of the JSON-RPC item
facade (`server.py`).

The embedding translates the Python source into Lean:

* Python/JSON values (`None`, `bool`, `int`, `float`, `str`,
  `datetime.date`, `datetime.datetime`, `list`, `tuple`, `dict`) become the
  inductive type `Value`.  A float is carried as an opaque literal string,
  since no arithmetic is ever performed on it.  A date or datetime carries
  the string that Python's `isoformat()` would produce for it.
* A database record (one `dict(row)` produced by `execute_query` /
  `execute_single`) is a `Row`: an ordered association list of field name
  to `Value`, mirroring an insertion-ordered Python dict with unique keys.
* Python `str` operations that the source uses (`replace`, `strip`,
  `upper`, `startswith`, `', '.join`) are implemented over `String.data`
  with Python's semantics, so that every definition evaluates inside the
  kernel.
* Statement building is pure and embedded verbatim (text plus ordered
  bound values).  Statement *execution* happens in PostgreSQL, outside the
  repository; it is modelled per call site: the denotation of a raw
  `where_clause` plus its bound values is a row predicate, the denotation
  of an `order_by` fragment is a comparator, `LIMIT`/`OFFSET` are
  take/drop, and `RETURNING *` yields the affected rows.  Python
  `ValueError` and backend (`asyncpg`) errors become the two constructors
  of `PyError`.
-/

/-- JSON-compatible database value, the domain of
`DatabaseContext.serialize_value`. -/
inductive Value where
  | vnull : Value
  | vbool : Bool → Value
  | vint : Int → Value
  | vfloat : String → Value
  | vstr : String → Value
  | vdate : String → Value
  | vdatetime : String → Value
  | vlist : List Value → Value
  | vtuple : List Value → Value
  | vdict : List (String × Value) → Value

/-- A database record: ordered field-name/value map, i.e. `dict(row)`. -/
abbrev Row : Type := List (String × Value)

mutual

/-- `DatabaseContext.serialize_value` (postgres_mcp_server.py lines 82-90):
date/datetime become their `isoformat()` string, lists and tuples are
serialized elementwise (a tuple becomes a list), dicts valuewise,
everything else is returned unchanged. -/
def serialize_value : Value → Value
  | .vdate iso => .vstr iso
  | .vdatetime iso => .vstr iso
  | .vlist xs => .vlist (serialize_list xs)
  | .vtuple xs => .vlist (serialize_list xs)
  | .vdict fs => .vdict (serialize_fields fs)
  | v => v
termination_by v => sizeOf v

/-- Elementwise serialization of `[self.serialize_value(v) for v in value]`. -/
def serialize_list : List Value → List Value
  | [] => []
  | v :: vs => serialize_value v :: serialize_list vs
termination_by xs => sizeOf xs

/-- Valuewise serialization of
`{k: self.serialize_value(v) for k, v in value.items()}`; also what
`serialize_value` does to a whole record dict. -/
def serialize_fields : Row → Row
  | [] => []
  | (k, v) :: fs => (k, serialize_value v) :: serialize_fields fs
termination_by fs => sizeOf fs

end

/-- Python `str.replace(pat, rep)` on character lists: scan left to right,
replacing non-overlapping occurrences.  Fuel-based (fuel = input length)
so the kernel can evaluate it; `pat` is nonempty at every call site. -/
def replaceFuel (rep pat : List Char) : Nat → List Char → List Char
  | _, [] => []
  | 0, s => s
  | fuel + 1, c :: rest =>
    if pat.isPrefixOf (c :: rest) then
      rep ++ replaceFuel rep pat fuel ((c :: rest).drop pat.length)
    else
      c :: replaceFuel rep pat fuel rest

/-- Python `s.replace(pat, rep)` (for nonempty `pat`, the only case the
source exercises). -/
def pyReplace (s pat rep : String) : String :=
  if pat.data = [] then s else ⟨replaceFuel rep.data pat.data s.data.length s.data⟩

/-- ASCII whitespace, the characters `str.strip()` removes on the inputs
this server sees. -/
def pyIsSpace (c : Char) : Bool :=
  c = ' ' || c = '\t' || c = '\n' || c = '\r' || c = '\x0b' || c = '\x0c'

/-- Python `str.strip()`: drop leading and trailing whitespace. -/
def pyStrip (s : String) : String :=
  ⟨((s.data.dropWhile pyIsSpace).reverse.dropWhile pyIsSpace).reverse⟩

/-- Python `str.upper()` (ASCII, enough for the SQL keywords compared). -/
def pyUpper (s : String) : String := ⟨s.data.map Char.toUpper⟩

/-- Python `str.startswith(pre)`. -/
def pyStartsWith (s pre : String) : Bool := pre.data.isPrefixOf s.data

/-- Python `sep.join(parts)`. -/
def pyJoin (sep : String) : List String → String
  | [] => ""
  | [x] => x
  | x :: xs => x ++ sep ++ pyJoin sep xs

/-- The positional parameter token `f"${n}"`. -/
def placeholder (n : Nat) : String := "$" ++ toString n

/-- Substring test (used to state that a built statement carries a WHERE
clause). -/
def strContains (s pat : String) : Bool := decide (List.IsInfix pat.data s.data)

/-- Python truthiness of an `Optional[str]`: `None` and `""` are falsy. -/
def truthyStr : Option String → Bool
  | none => false
  | some s => !s.data.isEmpty

/-- Python truthiness of an `Optional[List[...]]`: `None` and `[]` are
falsy. -/
def truthyList {α : Type} : Option (List α) → Bool
  | none => false
  | some l => !l.isEmpty

/-- Errors a tool call can surface: `valueError` is a Python
`ValueError` raised by the handler itself (the spec's ValidationError,
and - for the "not found" messages - its NotFoundError), while
`databaseError` is an error raised by the PostgreSQL backend through
asyncpg (the spec's DatabaseError). -/
inductive PyError where
  | valueError : String → PyError
  | databaseError : String → PyError
deriving DecidableEq

/-- The Statement Builder's output: statement text plus ordered bound
values. -/
structure BuiltStatement where
  text : String
  params : List Value

/-!
## Statement Builder

Pure embeddings of the query-building fragments of the tool handlers in
`postgres_mcp_server.py`.  Text is assembled exactly as the Python
f-strings assemble it, including the whitespace that the triple-quoted
literals contribute.
-/

/-- The INSERT build of `insert_record` (lines 303-314): guard against an
empty data map, one placeholder per column in dict iteration order
(`[f"${i+1}" for i in range(len(columns))]`), values in the same order
(`[data[col] for col in columns]`, which for a dict is the list of its
values). -/
def insert_build (table_name : String) (data : List (String × Value))
    (schema : String) : Except PyError BuiltStatement :=
  if data.isEmpty then
    .error (.valueError "Data dictionary cannot be empty")
  else
    let columns := data.map Prod.fst
    let placeholders := (List.range columns.length).map (fun i => placeholder (i + 1))
    let values := data.map Prod.snd
    .ok { text := "\n        INSERT INTO " ++ schema ++ "." ++ table_name
            ++ " (" ++ pyJoin ", " columns ++ ")\n        VALUES ("
            ++ pyJoin ", " placeholders ++ ")\n    ",
          params := values }

/-- The WHERE-clause renumbering loop of `update_records` (lines 447-449):
`for i, _ in enumerate(where_params): adjusted_where =
adjusted_where.replace(f"${i+1}", f"${param_index + i}")`, where
`param_index` has been advanced to `n + 1` by the SET loop. -/
def adjust_where (where_clause : String) (k : Nat) (param_index : Nat) : String :=
  (List.range k).foldl
    (fun acc i => pyReplace acc (placeholder (i + 1)) (placeholder (param_index + i)))
    where_clause

/-- The UPDATE build of `update_records` (lines 427-455): guards for an
empty data map and a missing WHERE clause, SET placeholders `$1..$n` in
dict iteration order, bound values = SET values followed by the WHERE
parameters, and the WHERE clause with its placeholders renumbered by
`adjust_where`. -/
def update_build (table_name : String) (data : List (String × Value))
    (where_clause : String) (where_params : List Value)
    (schema : String) : Except PyError BuiltStatement :=
  if data.isEmpty then
    .error (.valueError "Data dictionary cannot be empty")
  else if where_clause.data.isEmpty then
    .error (.valueError "WHERE clause is required for UPDATE operations for safety")
  else
    let set_clauses := data.enum.map (fun p => p.2.1 ++ " = " ++ placeholder (p.1 + 1))
    let values := data.map Prod.snd ++ where_params
    let param_index := data.length + 1
    let adjusted_where := adjust_where where_clause where_params.length param_index
    .ok { text := "\n        UPDATE " ++ schema ++ "." ++ table_name
            ++ "\n        SET " ++ pyJoin ", " set_clauses
            ++ "\n        WHERE " ++ adjusted_where ++ "\n    ",
          params := values }

/-- The DELETE build of `delete_records` (lines 494-497): guard for a
missing WHERE clause, then
`f"DELETE FROM {schema}.{table_name} WHERE {where_clause}"` with the
WHERE parameters bound unchanged. -/
def delete_build (table_name : String) (where_clause : String)
    (where_params : List Value) (schema : String) : Except PyError BuiltStatement :=
  if where_clause.data.isEmpty then
    .error (.valueError "WHERE clause is required for DELETE operations for safety")
  else
    .ok { text := "DELETE FROM " ++ schema ++ "." ++ table_name
            ++ " WHERE " ++ where_clause,
          params := where_params }

/-- The SELECT build of `select_records` (lines 358-390): the row-fetch
statement (columns defaulting to `*`, optional WHERE, ORDER BY, LIMIT and
OFFSET, the latter two appending placeholders after whatever the WHERE
parameters consumed) and the count statement
(`SELECT COUNT(*) as total FROM ...` plus the same optional WHERE with
the same parameters).  Returns (fetch statement, count statement). -/
def select_build (table_name schema : String) (columns : Option (List String))
    (where_clause : Option String) (where_params : Option (List Value))
    (order_by : Option String) (limit offset : Option Nat) :
    BuiltStatement × BuiltStatement :=
  let select_columns := if truthyList columns then pyJoin ", " (columns.getD []) else "*"
  let query0 := "SELECT " ++ select_columns ++ " FROM " ++ schema ++ "." ++ table_name
  let step1 : String × List Value :=
    if truthyStr where_clause then
      (query0 ++ " WHERE " ++ where_clause.getD "",
       if truthyList where_params then where_params.getD [] else [])
    else (query0, [])
  let step2 : String × List Value :=
    if truthyStr order_by then (step1.1 ++ " ORDER BY " ++ order_by.getD "", step1.2)
    else step1
  let step3 : String × List Value :=
    match limit with
    | some l => (step2.1 ++ " LIMIT " ++ placeholder (step2.2.length + 1),
                 step2.2 ++ [Value.vint l])
    | none => step2
  let step4 : String × List Value :=
    match offset with
    | some o => (step3.1 ++ " OFFSET " ++ placeholder (step3.2.length + 1),
                 step3.2 ++ [Value.vint o])
    | none => step3
  let count_text :=
    "SELECT COUNT(*) as total FROM " ++ schema ++ "." ++ table_name
      ++ (if truthyStr where_clause then " WHERE " ++ where_clause.getD "" else "")
  let count_params : List Value :=
    if truthyStr where_clause then
      (if truthyList where_params then where_params.getD [] else [])
    else []
  (⟨step4.1, step4.2⟩, ⟨count_text, count_params⟩)

/-- The guard of `execute_custom_query` (lines 540-547): reject an
empty/whitespace-only query; when the declared `query_type` is SELECT
(case-insensitively), reject any query whose stripped upper-cased text
does not start with `SELECT`.  Returns the statement to execute together
with whether it goes down the SELECT branch. -/
def custom_build (query : String) (params : Option (List Value))
    (query_type : String) : Except PyError (BuiltStatement × Bool) :=
  if (pyStrip query).data.isEmpty then
    .error (.valueError "Query cannot be empty")
  else
    let query_upper := pyUpper (pyStrip query)
    if pyUpper query_type = "SELECT" then
      if !pyStartsWith query_upper "SELECT" then
        .error (.valueError "Query must start with SELECT for query_type='SELECT'")
      else .ok (⟨query, params.getD []⟩, true)
    else .ok (⟨query, params.getD []⟩, false)

/-!
## Query Executor

Executing a built statement happens inside PostgreSQL; the backend's
evaluation is modelled per call site.  The denotation of a raw
`where_clause` together with its bound parameters is a row predicate
`pred`; the denotation of an `order_by` fragment is a comparator `cmp`;
`LIMIT`/`OFFSET` drop and take rows; `RETURNING *` yields the affected
rows.  Driver status tags (`"UPDATE 3"`, ...) are parsed exactly as the
Python does with `int(result.split()[-1])`.
-/

/-- Python `str.split()` helper: accumulate the current token. -/
def splitWSGo : List Char → List Char → List String
  | [], cur => if cur.isEmpty then [] else [(⟨cur⟩ : String)]
  | c :: rest, cur =>
    if pyIsSpace c then
      (if cur.isEmpty then [] else [(⟨cur⟩ : String)]) ++ splitWSGo rest []
    else splitWSGo rest (cur ++ [c])

/-- Python `str.split()` with no argument: split on whitespace runs,
discarding empty tokens. -/
def pySplitWS (s : String) : List String := splitWSGo s.data []

/-- Python `str.isdigit()` (ASCII digits). -/
def pyIsDigitStr (s : String) : Bool := !s.data.isEmpty && s.data.all Char.isDigit

/-- Decimal value of an all-digit string (what Python `int(s)` returns on
an `isdigit` string). -/
def pyParseNat (s : String) : Nat := s.data.foldl (fun n c => n * 10 + (c.toNat - 48)) 0

/-- `int(result.split()[-1]) if result.split()[-1].isdigit() else 0`
(line 561; a real command tag is never empty, so the `[-1]` of the Python
never faults and the `getD` default is never taken). -/
def rows_affected_of_tag (tag : String) : Nat :=
  let last := (pySplitWS tag).getLast?.getD ""
  if pyIsDigitStr last then pyParseNat last else 0

/-- Result shape of `select_records` (lines 392-398). -/
structure SelectResult where
  records : List Row
  total_count : Nat
  returned_count : Nat
  limit : Option Nat
  offset : Nat

/-- Result shape of `update_records` / `delete_records` (the `records`
field is present only on the RETURNING branch). -/
structure MutateResult where
  success : Bool
  records : Option (List Row)
  rows_affected : Nat

/-- Result shape of `insert_record`. -/
structure InsertResult where
  success : Bool
  record : Option Row
  rows_affected : Option Nat

/-- Result shape of `execute_custom_query`: the SELECT branch returns
serialized records plus their count, the command branch the driver status
tag plus the parsed affected-row count. -/
inductive CustomResult where
  | selectResult (records : List Row) (record_count : Nat)
  | commandResult (result : String) (rows_affected : Nat)

/-- Apply an UPDATE SET list to one row: every column named in `data`
takes its new value, all other fields keep theirs. -/
def applySet (data : List (String × Value)) (r : Row) : Row :=
  r.map (fun kv => match data.lookup kv.1 with | some v => (kv.1, v) | none => kv)

/-- The row-fetch statement of `select_records` (lines 358-379) as the
backend evaluates it: optional WHERE filter, optional ORDER BY sort,
then OFFSET and LIMIT.  `pred` is the denotation of `where_clause` with
`where_params` bound, `cmp` the denotation of `order_by`. -/
def select_fetch (rows : List Row) (where_clause : Option String) (pred : Row → Bool)
    (order_by : Option String) (cmp : Row → Row → Bool)
    (limit offset : Option Nat) : List Row :=
  let filtered := if truthyStr where_clause then rows.filter pred else rows
  let ordered := if truthyStr order_by then filtered.mergeSort cmp else filtered
  let afterOffset := match offset with | some o => ordered.drop o | none => ordered
  match limit with | some l => afterOffset.take l | none => afterOffset

/-- `select_records` (lines 329-398): run the fetch statement, then the
count statement (WHERE only - built without ORDER BY, LIMIT or OFFSET,
see `select_build`), and assemble the response envelope with serialized
records, `returned_count = len(records)` and `offset = offset or 0`. -/
def select_records (rows : List Row) (where_clause : Option String) (pred : Row → Bool)
    (order_by : Option String) (cmp : Row → Row → Bool)
    (limit offset : Option Nat) : SelectResult :=
  let records := select_fetch rows where_clause pred order_by cmp limit offset
  let total_count := (if truthyStr where_clause then rows.filter pred else rows).length
  { records := records.map serialize_fields,
    total_count := total_count,
    returned_count := records.length,
    limit := limit,
    offset := offset.getD 0 }

/-- `update_records` (lines 402-467): guards and build as in
`update_build`; on success the backend updates every row matching the
predicate denoted by the adjusted WHERE clause (`pred`), RETURNING the
updated rows.  The non-returning branch parses the `"UPDATE n"` tag.
Returns (table rows after the call, response). -/
def update_records (rows : List Row) (table_name : String) (data : List (String × Value))
    (where_clause : String) (where_params : List Value) (schema : String)
    (return_records : Bool) (pred : Row → Bool) :
    List Row × Except PyError MutateResult :=
  match update_build table_name data where_clause where_params schema with
  | .error e => (rows, .error e)
  | .ok _stmt =>
    let updated := rows.map (fun r => if pred r then applySet data r else r)
    let affected := (rows.filter pred).map (applySet data)
    if return_records then
      (updated, .ok { success := true, records := some (affected.map serialize_fields),
                      rows_affected := affected.length })
    else
      (updated, .ok { success := true, records := none,
                      rows_affected := rows_affected_of_tag
                        ("UPDATE " ++ toString affected.length) })

/-- `delete_records` (lines 471-509): guard and build as in
`delete_build`; on success the backend removes every row matching the
denoted predicate, RETURNING the removed rows on request.  Returns
(table rows after the call, response). -/
def delete_records (rows : List Row) (table_name : String)
    (where_clause : String) (where_params : List Value) (schema : String)
    (return_records : Bool) (pred : Row → Bool) :
    List Row × Except PyError MutateResult :=
  match delete_build table_name where_clause where_params schema with
  | .error e => (rows, .error e)
  | .ok _stmt =>
    let remaining := rows.filter (fun r => !pred r)
    let affected := rows.filter pred
    if return_records then
      (remaining, .ok { success := true, records := some (affected.map serialize_fields),
                        rows_affected := affected.length })
    else
      (remaining, .ok { success := true, records := none,
                        rows_affected := rows_affected_of_tag
                          ("DELETE " ++ toString affected.length) })

/-- `insert_record` (lines 282-325): build as in `insert_build`;
`insertedRow` is the row the backend hands back for `RETURNING *`
(`none` models `execute_single` returning no row, the code's
`{"success": False, ...}` branch); the non-returning branch parses the
single-row `"INSERT 0 1"` tag. -/
def insert_record (table_name : String) (data : List (String × Value)) (schema : String)
    (return_record : Bool) (insertedRow : Option Row) : Except PyError InsertResult :=
  match insert_build table_name data schema with
  | .error e => .error e
  | .ok _stmt =>
    if return_record then
      match insertedRow with
      | some row => .ok { success := true, record := some (serialize_fields row),
                          rows_affected := none }
      | none => .ok { success := false, record := none, rows_affected := none }
    else
      .ok { success := true, record := none,
            rows_affected := some (rows_affected_of_tag "INSERT 0 1") }

/-- `execute_custom_query` (lines 517-562): guard as in `custom_build`;
the SELECT branch fetches `selectRows` (the backend's answer) and
serializes them, the command branch returns the driver tag
`commandTag` and the affected-row count parsed from it. -/
def execute_custom_query (query : String) (params : Option (List Value))
    (query_type : String) (selectRows : List Row) (commandTag : String) :
    Except PyError CustomResult :=
  match custom_build query params query_type with
  | .error e => .error e
  | .ok (_stmt, true) =>
    .ok (.selectResult (selectRows.map serialize_fields) selectRows.length)
  | .ok (_stmt, false) =>
    .ok (.commandResult commandTag (rows_affected_of_tag commandTag))

/-- `list_tables` (lines 183-207): runs the parameterized
`information_schema.tables` query for the schema and returns the
resulting rows exactly as `execute_query` produced them - no
`serialize_value` is applied on this path.  `infoTables` is the catalog's
answer per schema. -/
def list_tables (infoTables : String → List Row) (schema : String) : List Row :=
  infoTables schema

/-- The visible PostgreSQL state that `get_table_statistics` touches:
which relations exist in `pg_tables` (schema name, table name), their row
counts, and the size row the `pg_size_pretty` query produces for an
existing relation. -/
structure PgDb where
  tables : List (String × String)
  rowCount : String → String → Nat
  sizeRow : String → Row

/-- Result shape of `get_table_statistics`. -/
structure StatsResult where
  table_info : Row
  row_count : Nat
  size_info : Row

/-- `get_table_statistics` (lines 566-614) in the order the code runs it:
first the parameterized `pg_tables` lookup (returns no row when the table
is absent, never fails), then `SELECT COUNT(*) FROM {schema}.{table_name}`
- which the backend rejects with an undefined-relation error when the
relation does not exist - then the size query with the relation name
bound as `$1` (same failure mode), and only after all three the
`if not table_info` not-found check. -/
def get_table_statistics (db : PgDb) (table_name : String) (schema : String) :
    Except PyError StatsResult := do
  let table_info : Option Row :=
    if (schema, table_name) ∈ db.tables then
      some [("schemaname", .vstr schema), ("tablename", .vstr table_name)]
    else none
  let row_count : Option Row ←
    if (schema, table_name) ∈ db.tables then
      Except.ok (some [("row_count", Value.vint (db.rowCount schema table_name))])
    else
      Except.error (PyError.databaseError
        ("relation \x22" ++ schema ++ "." ++ table_name ++ "\x22 does not exist"))
  let size_info : Option Row ←
    if (schema, table_name) ∈ db.tables then
      Except.ok (some (db.sizeRow (schema ++ "." ++ table_name)))
    else
      Except.error (PyError.databaseError
        ("relation \x22" ++ schema ++ "." ++ table_name ++ "\x22 does not exist"))
  match table_info with
  | none =>
    Except.error (.valueError ("Table '" ++ schema ++ "." ++ table_name ++ "' not found"))
  | some ti =>
    Except.ok { table_info := ti,
                row_count := match row_count with
                  | some r => (match r.lookup "row_count" with
                               | some (.vint n) => n.toNat
                               | _ => 0)
                  | none => 0,
                size_info := size_info.getD [] }

/-!
## JSON-RPC item facade (`server.py`)
-/

/-- One row of the `items` table: id, name, nullable description. -/
abbrev Item : Type := Int × String × Option String

/-- What a JSON-RPC method returns: a `Success` result or an
`Error(code, message)` envelope. -/
inductive RpcResponse where
  | success (result : Value)
  | rpcError (code : Int) (message : String)

/-- The `{id, name, description}` result dict wrapped in `Success`. -/
def itemValue (it : Item) : Value :=
  .vdict [("id", .vint it.1), ("name", .vstr it.2.1),
          ("description", match it.2.2 with | some d => .vstr d | none => .vnull)]

/-- `update_item` (server.py lines 82-137): reject when neither `name` nor
`description` is given; otherwise run
`UPDATE items SET ... WHERE id = $k RETURNING id, name, description` -
`fetchrow` yields the updated row when a row with this id exists and no
row otherwise, which the handler maps to the not-found error.  Returns
(items table after the call, JSON-RPC response). -/
def update_item (items : List Item) (id : Int)
    (name : Option String) (description : Option String) :
    List Item × RpcResponse :=
  if name = none ∧ description = none then
    (items, .rpcError (-32602) "At least one of 'name' or 'description' must be provided")
  else
    match items.find? (fun it => it.1 == id) with
    | none => (items, .rpcError (-32602) ("Item with id " ++ toString id ++ " not found"))
    | some it =>
      let updated : Item :=
        (it.1, name.getD it.2.1,
         match description with | some d => some d | none => it.2.2)
      (items.map (fun x => if x.1 == id then updated else x),
       .success (itemValue updated))

/-!
## Helper lemmas
-/

theorem serialize_list_eq_map (xs : List Value) :
    serialize_list xs = xs.map serialize_value := by
  induction xs with
  | nil => simp [serialize_list]
  | cons v vs ih => simp [serialize_list, ih]

theorem serialize_fields_eq_map (fs : Row) :
    serialize_fields fs = fs.map (fun kv => (kv.1, serialize_value kv.2)) := by
  induction fs with
  | nil => simp [serialize_fields]
  | cons kv rest ih =>
    obtain ⟨k, v⟩ := kv
    simp [serialize_fields, ih]

mutual

theorem serialize_value_idem_aux (v : Value) :
    serialize_value (serialize_value v) = serialize_value v := by
  cases v with
  | vlist xs => simp [serialize_value, serialize_list_idem_aux xs]
  | vtuple xs => simp [serialize_value, serialize_list_idem_aux xs]
  | vdict fs => simp [serialize_value, serialize_fields_idem_aux fs]
  | _ => simp [serialize_value]
termination_by sizeOf v

theorem serialize_list_idem_aux (xs : List Value) :
    serialize_list (serialize_list xs) = serialize_list xs := by
  cases xs with
  | nil => simp [serialize_list]
  | cons v vs => simp [serialize_list, serialize_value_idem_aux v, serialize_list_idem_aux vs]
termination_by sizeOf xs

theorem serialize_fields_idem_aux (fs : Row) :
    serialize_fields (serialize_fields fs) = serialize_fields fs := by
  cases fs with
  | nil => simp [serialize_fields]
  | cons kv rest =>
    obtain ⟨k, v⟩ := kv
    simp [serialize_fields, serialize_value_idem_aux v, serialize_fields_idem_aux rest]
termination_by sizeOf fs

end

theorem strContains_of_infix {s pat : String} (h : pat.data <:+: s.data) :
    strContains s pat = true := by
  simp [strContains, h]

theorem select_fetch_length_le (rows : List Row) (wc : Option String) (pred : Row → Bool)
    (ob : Option String) (cmp : Row → Row → Bool) (l o : Option Nat) :
    (select_fetch rows wc pred ob cmp l o).length
      ≤ (if truthyStr wc then rows.filter pred else rows).length := by
  unfold select_fetch
  set base := if truthyStr wc then rows.filter pred else rows with hbase
  have h1 : (if truthyStr ob then base.mergeSort cmp else base).length = base.length := by
    cases truthyStr ob with
    | false => simp
    | true => simp [(List.mergeSort_perm base cmp).length_eq]
  cases o <;> cases l <;>
    simp only [List.length_take, List.length_drop, h1] <;> omega

/-!
## Claims
-/

/-- C10: `serialize_value` is idempotent on the JSON-compatible value
domain (null, bool, integer, float, string, date/datetime, and nested
lists/tuples/dicts thereof): serializing twice equals serializing once,
because dates become plain strings and already-normalized values pass
through unchanged (tuples become lists on the first pass). -/
theorem serialize_value_idempotent (v : Value) :
    serialize_value (serialize_value v) = serialize_value v :=
  serialize_value_idem_aux v

/-- C1 (failing-input evaluation): with one SET column and a WHERE clause
referencing `$1` and `$2` with two bound values, `update_records` builds
`WHERE id = $3 AND name = $3`, not the claimed `WHERE id = $2 AND name = $3`:
the sequential `str.replace` renumbering first rewrites `$1` to `$2` and
the next iteration rewrites both occurrences of `$2` to `$3`.  The bound
value `y` is referenced twice and `$2` (the value `x`) never. -/
theorem update_build_renumber_misfire :
    update_build "items" [("status", Value.vstr "v")] "id = $1 AND name = $2"
        [Value.vstr "x", Value.vstr "y"] "public"
      = Except.ok
          ⟨"\n        UPDATE public.items\n        SET status = $1\n        WHERE id = $3 AND name = $3\n    ",
           [Value.vstr "v", Value.vstr "x", Value.vstr "y"]⟩
    ∧ adjust_where "id = $1 AND name = $2" 2 2 ≠ "id = $2 AND name = $3" := by
  constructor
  · rfl
  · decide

/-- C6 (failing-input evaluation): asking for statistics of a table that
does not exist fails with the backend's undefined-relation
`DatabaseError` raised by the unparameterized `COUNT(*)` statement, which
runs before the handler's own not-found check; the descriptive
`ValueError` ("Table ... not found", the spec's NotFoundError) is never
reached. -/
theorem get_table_statistics_missing_table_error :
    get_table_statistics ⟨[], fun _ _ => 0, fun _ => []⟩ "missing" "public"
      = Except.error (PyError.databaseError "relation \"public.missing\" does not exist")
    ∧ ∀ m, get_table_statistics ⟨[], fun _ _ => 0, fun _ => []⟩ "missing" "public"
        ≠ Except.error (PyError.valueError m) := by
  refine ⟨rfl, ?_⟩
  intro m hm
  rw [show get_table_statistics ⟨[], fun _ _ => 0, fun _ => []⟩ "missing" "public"
      = Except.error (PyError.databaseError "relation \"public.missing\" does not exist")
    from rfl] at hm
  simp at hm

/-- C7 (counterexample): `list_tables` returns the catalog rows exactly
as the driver produced them, without applying `serialize_value`; a row
holding a datetime value reaches the response envelope un-normalized
(serialization would have changed it), so the normalization is not
applied to every record of every tool-surface operation. -/
theorem list_tables_skips_serialization :
    list_tables (fun _ => [[("table_name", Value.vdatetime "2024-01-01T00:00:00")]]) "public"
      = [[("table_name", Value.vdatetime "2024-01-01T00:00:00")]]
    ∧ serialize_fields [("table_name", Value.vdatetime "2024-01-01T00:00:00")]
      ≠ [("table_name", Value.vdatetime "2024-01-01T00:00:00")] := by
  constructor
  · rfl
  · simp [serialize_fields, serialize_value]

/-- C7 (amended): `serialize_value` converts every date/time value to its
ISO-8601 string, normalizes sequences elementwise (tuples becoming lists)
and maps valuewise recursively, and passes every other value through
unchanged; and this normalization is applied to every field of every
record returned by `insert_record`, `select_records`, `update_records`,
`delete_records` and the SELECT branch of `execute_custom_query` (every
record those operations emit is a fixed point of the normalization) - but
not by the introspection operations (`list_tables`, `describe_table`,
`get_table_statistics`), see the counterexample. -/
theorem serialize_value_spec_and_application :
    (∀ s, serialize_value (.vdate s) = .vstr s)
    ∧ (∀ s, serialize_value (.vdatetime s) = .vstr s)
    ∧ (∀ xs, serialize_value (.vlist xs) = .vlist (xs.map serialize_value))
    ∧ (∀ xs, serialize_value (.vtuple xs) = .vlist (xs.map serialize_value))
    ∧ (∀ fs : Row, serialize_value (.vdict fs)
        = .vdict (fs.map (fun kv => (kv.1, serialize_value kv.2))))
    ∧ serialize_value .vnull = .vnull
    ∧ (∀ b, serialize_value (.vbool b) = .vbool b)
    ∧ (∀ i, serialize_value (.vint i) = .vint i)
    ∧ (∀ f, serialize_value (.vfloat f) = .vfloat f)
    ∧ (∀ s, serialize_value (.vstr s) = .vstr s)
    ∧ (∀ rows wc pred ob cmp l o r,
        r ∈ (select_records rows wc pred ob cmp l o).records → serialize_fields r = r)
    ∧ (∀ rows t data wc wp s ret pred res rs r,
        (update_records rows t data wc wp s ret pred).2 = Except.ok res →
        res.records = some rs → r ∈ rs → serialize_fields r = r)
    ∧ (∀ rows t wc wp s ret pred res rs r,
        (delete_records rows t wc wp s ret pred).2 = Except.ok res →
        res.records = some rs → r ∈ rs → serialize_fields r = r)
    ∧ (∀ t data s ret row res r,
        insert_record t data s ret row = Except.ok res →
        res.record = some r → serialize_fields r = r)
    ∧ (∀ q p qt sel tag rs n,
        execute_custom_query q p qt sel tag = Except.ok (.selectResult rs n) →
        ∀ r ∈ rs, serialize_fields r = r) := by
  refine ⟨fun s => by simp [serialize_value],
          fun s => by simp [serialize_value],
          fun xs => by simp [serialize_value, serialize_list_eq_map],
          fun xs => by simp [serialize_value, serialize_list_eq_map],
          fun fs => by simp [serialize_value, serialize_fields_eq_map],
          by simp [serialize_value],
          fun b => by simp [serialize_value],
          fun i => by simp [serialize_value],
          fun f => by simp [serialize_value],
          fun s => by simp [serialize_value],
          ?_, ?_, ?_, ?_, ?_⟩
  · intro rows wc pred ob cmp l o r hr
    simp only [select_records, List.mem_map] at hr
    obtain ⟨r0, _, rfl⟩ := hr
    exact serialize_fields_idem_aux r0
  · intro rows t data wc wp s ret pred res rs r hok hrecs hr
    unfold update_records at hok
    split at hok
    · simp at hok
    · split at hok
      · simp only [Except.ok.injEq] at hok
        subst hok
        simp only [Option.some.injEq] at hrecs
        subst hrecs
        simp only [List.mem_map] at hr
        obtain ⟨r0, _, rfl⟩ := hr
        exact serialize_fields_idem_aux r0
      · simp only [Except.ok.injEq] at hok
        subst hok
        simp at hrecs
  · intro rows t wc wp s ret pred res rs r hok hrecs hr
    unfold delete_records at hok
    split at hok
    · simp at hok
    · split at hok
      · simp only [Except.ok.injEq] at hok
        subst hok
        simp only [Option.some.injEq] at hrecs
        subst hrecs
        simp only [List.mem_map] at hr
        obtain ⟨r0, _, rfl⟩ := hr
        exact serialize_fields_idem_aux r0
      · simp only [Except.ok.injEq] at hok
        subst hok
        simp at hrecs
  · intro t data s ret row res r hok hrec
    unfold insert_record at hok
    split at hok
    · simp at hok
    · split at hok
      · split at hok
        · simp only [Except.ok.injEq] at hok
          subst hok
          simp only [Option.some.injEq] at hrec
          subst hrec
          exact serialize_fields_idem_aux _
        · simp only [Except.ok.injEq] at hok
          subst hok
          simp at hrec
      · simp only [Except.ok.injEq] at hok
        subst hok
        simp at hrec
  · intro q p qt sel tag rs n hok r hr
    unfold execute_custom_query at hok
    split at hok
    · simp at hok
    · simp only [Except.ok.injEq, CustomResult.selectResult.injEq] at hok
      obtain ⟨rfl, -⟩ := hok
      simp only [List.mem_map] at hr
      obtain ⟨r0, _, rfl⟩ := hr
      exact serialize_fields_idem_aux r0
    · simp at hok

/-- C2: `returned_count` always equals the length of the returned records
list, `total_count` bounds it from above, and `total_count` does not
depend on `limit`/`offset` for a fixed table, predicate and bound values
(two runs differing only in limit/offset agree on it). -/
theorem select_records_pagination_invariants
    (rows : List Row) (wc : Option String) (pred : Row → Bool)
    (ob : Option String) (cmp : Row → Row → Bool) (l1 o1 l2 o2 : Option Nat) :
    (select_records rows wc pred ob cmp l1 o1).returned_count
        = (select_records rows wc pred ob cmp l1 o1).records.length
    ∧ (select_records rows wc pred ob cmp l1 o1).returned_count
        ≤ (select_records rows wc pred ob cmp l1 o1).total_count
    ∧ (select_records rows wc pred ob cmp l1 o1).total_count
        = (select_records rows wc pred ob cmp l2 o2).total_count := by
  refine ⟨by simp [select_records], ?_, by simp [select_records]⟩
  simp only [select_records]
  exact select_fetch_length_le rows wc pred ob cmp l1 o1

theorem infix_skip (l₁ : List Char) {pat l₂ : List Char} (h : pat <:+: l₂) :
    pat <:+: l₁ ++ l₂ :=
  h.trans (List.suffix_append l₁ l₂).isInfix

/-- C3: with an empty (or, at the protocol layer, missing) `where_clause`
both `update_records` and `delete_records` fail with a `ValueError`
(ValidationError) raised before any statement is built or executed,
leaving the table unchanged; and every successfully built UPDATE or
DELETE statement carries a WHERE clause, so no parameter combination
yields an unscoped whole-table mutation. -/
theorem mutation_requires_where_clause
    (rows : List Row) (t : String) (data : List (String × Value))
    (wc : String) (wp : List Value) (s : String) (ret : Bool) (pred : Row → Bool)
    (hwc : wc = "") :
    (update_records rows t data wc wp s ret pred).1 = rows
    ∧ (∃ m, (update_records rows t data wc wp s ret pred).2
        = Except.error (PyError.valueError m))
    ∧ (delete_records rows t wc wp s ret pred).1 = rows
    ∧ (delete_records rows t wc wp s ret pred).2
        = Except.error (PyError.valueError
            "WHERE clause is required for DELETE operations for safety")
    ∧ (∀ wc' stmt, update_build t data wc' wp s = Except.ok stmt →
        strContains stmt.text " WHERE " = true)
    ∧ (∀ wc' stmt, delete_build t wc' wp s = Except.ok stmt →
        strContains stmt.text " WHERE " = true) := by
  subst hwc
  refine ⟨?_, ?_, ?_, ?_, ?_, ?_⟩
  · cases data with
    | nil => rfl
    | cons a as => rfl
  · cases data with
    | nil => exact ⟨"Data dictionary cannot be empty", rfl⟩
    | cons a as => exact ⟨"WHERE clause is required for UPDATE operations for safety", rfl⟩
  · rfl
  · rfl
  · intro wc' stmt hok
    unfold update_build at hok
    cases h1 : data.isEmpty with
    | true => rw [h1] at hok; simp at hok
    | false =>
      cases h2 : wc'.data.isEmpty with
      | true => rw [h1, h2] at hok; simp at hok
      | false =>
        rw [h1, h2] at hok
        simp only [Bool.false_eq_true, if_false, Except.ok.injEq] at hok
        subst hok
        apply strContains_of_infix
        simp only [String.data_append, List.append_assoc]
        refine infix_skip _ (infix_skip _ (infix_skip _ (infix_skip _
          (infix_skip _ (infix_skip _ ?_)))))
        exact ((by decide : (" WHERE " : String).data <:+: ("\n        WHERE " : String).data)).trans
          (List.prefix_append _ _).isInfix
  · intro wc' stmt hok
    unfold delete_build at hok
    cases h2 : wc'.data.isEmpty with
    | true => rw [h2] at hok; simp at hok
    | false =>
      rw [h2] at hok
      simp only [Bool.false_eq_true, if_false, Except.ok.injEq] at hok
      subst hok
      apply strContains_of_infix
      simp only [String.data_append, List.append_assoc]
      refine infix_skip _ (infix_skip _ (infix_skip _ (infix_skip _ ?_)))
      exact (List.prefix_append _ _).isInfix

/-- C4: `execute_custom_query` fails with a `ValueError` (ValidationError)
when the query text is empty or whitespace-only, and, when `query_type`
is SELECT case-insensitively, for every query whose stripped text does
not start with SELECT case-insensitively (the code strips both ends, but
stripping the right end cannot affect a six-letter `SELECT` prefix), in
both cases before anything is executed. -/
theorem execute_custom_query_guards (query : String) (params : Option (List Value))
    (query_type : String) (selectRows : List Row) (commandTag : String) :
    ((pyStrip query).data.isEmpty = true →
      execute_custom_query query params query_type selectRows commandTag
        = Except.error (PyError.valueError "Query cannot be empty"))
    ∧ ((pyStrip query).data.isEmpty = false →
       pyUpper query_type = "SELECT" →
       pyStartsWith (pyUpper (pyStrip query)) "SELECT" = false →
       execute_custom_query query params query_type selectRows commandTag
         = Except.error
             (PyError.valueError "Query must start with SELECT for query_type='SELECT'")) := by
  constructor
  · intro h
    simp [execute_custom_query, custom_build, h]
  · intro h1 h2 h3
    simp [execute_custom_query, custom_build, h1, h2, h3]

/-- C5: for every `select_records` parameter combination, the count
statement equals the row-fetch statement built with the column list
replaced by `COUNT(*) as total` and ordering/limit/offset dropped; the
fetch statement's bound values are the count statement's (the predicate
values, in order, with the where-clause text kept verbatim and hence its
original placeholder numbering) followed by the limit and offset values;
and with no where_clause the count statement is exactly
`SELECT COUNT(*) as total FROM schema.table` with no bound values and no
WHERE clause. -/
theorem count_statement_shape (t s : String) (cols : Option (List String))
    (wc : Option String) (wp : Option (List Value)) (ob : Option String)
    (l o : Option Nat) :
    (select_build t s cols wc wp ob l o).2
      = (select_build t s (some ["COUNT(*) as total"]) wc wp none none none).1
    ∧ (select_build t s cols wc wp ob l o).1.params
      = (select_build t s cols wc wp ob l o).2.params
          ++ (match l with | some n => [Value.vint (n : Nat)] | none => [])
          ++ (match o with | some n => [Value.vint (n : Nat)] | none => [])
    ∧ (truthyStr wc = false →
        (select_build t s cols wc wp ob l o).2
          = ⟨"SELECT COUNT(*) as total FROM " ++ s ++ "." ++ t, []⟩)
    ∧ (truthyStr wc = true →
        (select_build t s cols wc wp ob l o).2.text
          = "SELECT COUNT(*) as total FROM " ++ s ++ "." ++ t ++ " WHERE " ++ wc.getD ""
        ∧ (select_build t s cols wc wp ob l o).2.params
          = (if truthyList wp then wp.getD [] else [])) := by
  refine ⟨?_, ?_, ?_, ?_⟩
  · cases hwc : truthyStr wc <;> cases hwp : truthyList wp <;>
      simp +decide [select_build, hwc, hwp, pyJoin, String.append_assoc]
  · cases hwc : truthyStr wc <;> cases hob : truthyStr ob <;>
      cases hwp : truthyList wp <;> cases l <;> cases o <;>
      simp [select_build, hwc, hob, hwp]
  · intro hwc
    simp [select_build, hwc]
  · intro hwc
    simp [select_build, hwc, String.append_assoc]

/-- C8: for a non-empty column-value map, `insert_record` builds an
INSERT whose placeholder list has exactly one entry per map entry,
numbered `$1..$n` consecutively in map iteration order, with the bound
values being the map's values in that same order; for an empty map it
fails with a `ValueError` (ValidationError). -/
theorem insert_build_placeholders (t : String) (data : List (String × Value)) (s : String) :
    (data = [] → insert_build t data s
        = Except.error (PyError.valueError "Data dictionary cannot be empty"))
    ∧ (data ≠ [] →
        insert_build t data s = Except.ok
          ⟨"\n        INSERT INTO " ++ s ++ "." ++ t ++ " ("
             ++ pyJoin ", " (data.map Prod.fst)
             ++ ")\n        VALUES ("
             ++ pyJoin ", " ((List.range data.length).map (fun i => placeholder (i + 1)))
             ++ ")\n    ",
           data.map Prod.snd⟩
        ∧ ((List.range data.length).map (fun i => placeholder (i + 1))).length = data.length
        ∧ ∀ i (h : i < ((List.range data.length).map (fun i => placeholder (i + 1))).length),
            ((List.range data.length).map (fun i => placeholder (i + 1))).get ⟨i, h⟩
              = placeholder (i + 1)) := by
  constructor
  · intro h
    subst h
    rfl
  · intro h
    have hne : data.isEmpty = false := by
      cases data with
      | nil => exact absurd rfl h
      | cons a as => rfl
    refine ⟨?_, by simp, ?_⟩
    · unfold insert_build
      rw [hne]
      simp only [Bool.false_eq_true, if_false, List.length_map]
    · intro i hi
      simp [List.get_eq_getElem]

/-- C9: on the JSON-RPC surface, `update_item` with an id matching no row
returns the error envelope `{"code": -32602, "message": "Item with id
<id> not found"}` (and leaves the table unchanged), and `update_item`
with neither `name` nor `description` provided returns an error with code
-32602 as well; it never returns a success result in either case. -/
theorem update_item_error_envelopes (items : List Item) (id : Int)
    (name description : Option String)
    (hmiss : ∀ it ∈ items, it.1 ≠ id) :
    (¬(name = none ∧ description = none) →
      update_item items id name description
        = (items, RpcResponse.rpcError (-32602)
            ("Item with id " ++ toString id ++ " not found")))
    ∧ (name = none → description = none →
      update_item items id name description
        = (items, RpcResponse.rpcError (-32602)
            "At least one of 'name' or 'description' must be provided")) := by
  constructor
  · intro hsome
    have hfind : items.find? (fun it => it.1 == id) = none := by
      rw [List.find?_eq_none]
      intro it hit
      simpa using hmiss it hit
    simp [update_item, hsome, hfind]
  · intro h1 h2
    simp [update_item, h1, h2]

/-- Witness for C3 at a concrete call: empty WHERE clause, one-column
data map. -/
theorem mutation_requires_where_clause_witness :
    (update_records [] "items" [("a", Value.vnull)] "" [] "public" false
        (fun _ => true)).1 = []
    ∧ (delete_records [] "items" "" [] "public" false (fun _ => true)).2
      = Except.error (PyError.valueError
          "WHERE clause is required for DELETE operations for safety") := by
  have h := mutation_requires_where_clause [] "items" [("a", Value.vnull)] "" []
    "public" false (fun _ => true) rfl
  exact ⟨h.1, h.2.2.2.1⟩

/-- Witness for C4 at the spec's literal scenario:
`execute_custom_query("DELETE FROM items", query_type="SELECT")`. -/
theorem execute_custom_query_guards_witness :
    execute_custom_query "DELETE FROM items" none "SELECT" [] ""
      = Except.error
          (PyError.valueError "Query must start with SELECT for query_type='SELECT'") :=
  (execute_custom_query_guards "DELETE FROM items" none "SELECT" [] "").2
    (by decide) (by decide) (by decide)

/-- Witness for C5 at a concrete call with a predicate, ordering and
pagination present. -/
theorem count_statement_shape_witness :
    (select_build "items" "public" none (some "id = $1") (some [Value.vint 5])
        (some "name") (some 10) (some 2)).2.text
      = "SELECT COUNT(*) as total FROM public.items WHERE id = $1" := by
  have h := (count_statement_shape "items" "public" none (some "id = $1")
    (some [Value.vint 5]) (some "name") (some 10) (some 2)).2.2.2 (by decide)
  exact h.1

/-- Witness for C7 at a concrete select: a fetched date field reaches the
envelope as its ISO string, a fixed point of the normalization. -/
theorem serialize_value_spec_and_application_witness :
    serialize_fields [("d", Value.vstr "2024-01-02")] = [("d", Value.vstr "2024-01-02")] := by
  have h := serialize_value_spec_and_application.2.2.2.2.2.2.2.2.2.2.1
  exact h [[("d", Value.vdate "2024-01-02")]] none (fun _ => true) none (fun _ _ => true)
    none none [("d", Value.vstr "2024-01-02")]
    (by simp [select_records, select_fetch, truthyStr, serialize_fields, serialize_value])

/-- Witness for C8 at a concrete two-column insert. -/
theorem insert_build_placeholders_witness :
    insert_build "items" [("name", Value.vstr "A"), ("description", Value.vstr "B")] "public"
      = Except.ok
          ⟨"\n        INSERT INTO public.items (name, description)\n        VALUES ($1, $2)\n    ",
           [Value.vstr "A", Value.vstr "B"]⟩ := by
  have h := (insert_build_placeholders "items"
    [("name", Value.vstr "A"), ("description", Value.vstr "B")] "public").2 (by simp)
  exact h.1

/-- Witness for C9 at the spec's literal scenario:
`update_item(id=999999, name="X")` against a table without that id, and a
call providing neither field. -/
theorem update_item_error_envelopes_witness :
    update_item [] 999999 (some "X") none
      = ([], RpcResponse.rpcError (-32602) "Item with id 999999 not found")
    ∧ (update_item [((1 : Int), "a", none)] 5 none none).2
      = RpcResponse.rpcError (-32602)
          "At least one of 'name' or 'description' must be provided" := by
  constructor
  · exact (update_item_error_envelopes [] 999999 (some "X") none (by simp)).1 (by simp)
  · have h := (update_item_error_envelopes [((1 : Int), "a", none)] 5 none none
      (by simp)).2 rfl rfl
    rw [h]
